import Mathlib

/-!
Shallow embedding of the machine reconciler of
`pkg/cloud/azure/actuators/machine/reconciler.go` (cluster-api-provider-azure).

The external collaborators (compute client, network client, extension client,
machine registry, token issuer, node inventory, encoding helpers) are modelled
as an explicit environment `Env` of response oracles.  Each lifecycle
operation is translated as a pure function from the environment and the
machine scope to its result, the list of external calls it performed (in
order), and the updated scope.  Errors are strings, mirroring the wrapped
error messages of the source.
-/

namespace AzureReconciler

/-- Modelled from the spec: role label value for worker machines
(constant `v1alpha1.Node` of the provider API types, not in the source slice). -/
def v1alpha1.Node : String := "node"

/-- Modelled from the spec: role label value for control-plane machines
(constant `v1alpha1.ControlPlane`, not in the source slice). -/
def v1alpha1.ControlPlane : String := "controlplane"

/-- Modelled from the spec: provisioning state "Succeeded"
(constant `v1alpha1.VMStateSucceeded`, not in the source slice). -/
def v1alpha1.VMStateSucceeded : String := "Succeeded"

/-- Modelled from the spec: provisioning state "Updating"
(constant `v1alpha1.VMStateUpdating`, not in the source slice). -/
def v1alpha1.VMStateUpdating : String := "Updating"

/-- One minute expressed in nanoseconds, as Go's `time.Minute` (a
`time.Duration` counts nanoseconds). -/
def time.Minute : Nat := 60 * 1000000000

/-- DefaultBootstrapTokenTTL default ttl for bootstrap token (source line 47). -/
def DefaultBootstrapTokenTTL : Nat := 10 * time.Minute

/-- A machine object as seen through the machine registry: its name and the
value of its "set" role label. -/
structure Machine where
  name : String
  setLabel : String
  deriving DecidableEq

/-- Modelled from the spec: the machine-registry role filter
(`clusterutil.IsControlPlaneMachine` from the external cluster-api utilities):
a machine is a control-plane machine when its role label is ControlPlane. -/
def clusterutil.IsControlPlaneMachine (m : Machine) : Bool :=
  m.setLabel = v1alpha1.ControlPlane

/-- The provider-side virtual machine payload returned by the compute client
(`compute.VirtualMachine`): identifier, provisioning state and the fields the
converter carries over. -/
structure VirtualMachine where
  id : String
  provisioningState : String
  vmSize : String
  osDisk : String
  image : String
  deriving DecidableEq

/-- The provider-independent VM record (`v1alpha1.VM`) produced by the
converter and consumed by the immutable-field check. -/
structure VM where
  vmSize : String
  osDisk : String
  image : String
  deriving DecidableEq

/-- Modelled from the spec: `converters.SDKToVM` (not in the source slice)
translates the provider VM payload into the provider-independent record,
carrying over the VM size and the other descriptive fields. -/
def converters.SDKToVM (vm : VirtualMachine) : VM :=
  ⟨vm.vmSize, vm.osDisk, vm.image⟩

/-- Desired machine configuration (`v1alpha1.AzureMachineProviderSpec`):
the fields of the provider spec used by the reconciler. -/
structure AzureMachineProviderSpec where
  vmSize : String
  sshPublicKey : String
  osDisk : String
  image : String
  deriving DecidableEq

/-- A node object of the cluster inventory (`corev1.Node`): the identity
fields and the provider-id of its spec. -/
structure corev1.Node where
  kind : String
  apiVersion : String
  name : String
  providerID : String
  deriving DecidableEq

/-- Reference to a node object (`apicorev1.ObjectReference`), as built by
`getNodeReference`. -/
structure ObjectReference where
  kind : String
  apiVersion : String
  name : String
  deriving DecidableEq

/-- Observed machine status (`scope.MachineStatus`): optional VM identifier
and optional provisioning state. -/
structure MachineStatus where
  VMID : Option String
  VMState : Option String
  deriving DecidableEq

/-- The machine scope (`actuators.MachineScope`): desired spec, identity,
status fields and cluster-level data the reconciler reads and mutates. -/
structure MachineScope where
  machineName : String
  setLabel : String
  providerID : Option String
  nodeRef : Option ObjectReference
  status : MachineStatus
  clusterName : String
  clusterConfig : Option String
  machineConfig : AzureMachineProviderSpec
  annots : Option (List (String × String))
  deriving DecidableEq

/-- Result of a compute-client Get: the Go call returns a payload and an
error; the source distinguishes (err ≠ nil ∧ payload = nil) as not-found,
(err ≠ nil ∧ payload ≠ nil) as a genuine error, a payload that is not a
`compute.VirtualMachine` (type-assertion failure), and success. -/
inductive VMGetResult where
  | notFound
  | errWithVM (e : String)
  | wrongType
  | found (vm : VirtualMachine)
  deriving DecidableEq

/-- Result of an extension-client Get: not-found (err ≠ nil ∧ payload = nil),
error with payload, or success (err = nil). -/
inductive ExtGetResult where
  | notFound
  | errWithExt (e : String)
  | found
  deriving DecidableEq

/-- Network-interface specification built by Create (`networkinterfaces.Spec`). -/
structure NicSpec where
  name : String
  vnetName : String
  subnetName : String
  publicLBName : String
  internalLBName : String
  natRule : Option Nat
  deriving DecidableEq

/-- Virtual-machine specification built by Create (`virtualmachines.Spec`). -/
structure VMSpec where
  name : String
  nicName : String
  sshKeyData : String
  size : String
  osDisk : String
  image : String
  deriving DecidableEq

/-- Extension specification built by Create (`virtualmachineextensions.Spec`). -/
structure ExtSpec where
  name : String
  vmName : String
  scriptData : String
  deriving DecidableEq

/-- One external call performed by the reconciler, recorded in order. -/
inductive Call where
  | machineList
  | vmGet (name : String)
  | extGet (vmName : String)
  | nicCreateOrUpdate (name : String)
  | vmCreateOrUpdate (name : String)
  | extCreateOrUpdate (vmName : String)
  | vmDelete (name : String)
  | nicDelete (name : String)
  | createToken (ttl : Nat)
  | nodesList
  deriving DecidableEq

/-- A write to one of the three resolution-owned status fields. -/
inductive StatusWrite where
  | vmId (v : String)
  | vmState (v : String)
  | nodeRef (r : ObjectReference)
  deriving DecidableEq

/-- The environment of external collaborators: every response the reconciler
can observe from the provider clients, the machine registry, the token
issuer, the node inventory and the pure encoding helpers. -/
structure Env where
  machineList : Except String (List Machine)
  vmGet : String → VMGetResult
  extGet : String → ExtGetResult
  nicCreateOrUpdate : NicSpec → Option String
  vmCreateOrUpdate : VMSpec → Option String
  extCreateOrUpdate : ExtSpec → Option String
  vmDelete : String → Option String
  nicDelete : String → String → Option String
  createToken : String → Nat → Except String String
  getVMStartupScript : MachineScope → String → Except String String
  base64Decode : String → String
  base64Encode : String → String
  coreV1Client : String → Except String Unit
  nodePages : List (Except String (List corev1.Node))

/-- Modelled from the spec: `azure.GenerateVnetName` (not in the source
slice), the deterministic virtual-network name derived from the cluster name. -/
def azure.GenerateVnetName (cluster : String) : String := cluster ++ "-vnet"

/-- Modelled from the spec: `azure.GenerateNodeSubnetName` (not in the source
slice), the node subnet name derived from the cluster name. -/
def azure.GenerateNodeSubnetName (cluster : String) : String := cluster ++ "-node-subnet"

/-- Modelled from the spec: `azure.GenerateControlPlaneSubnetName` (not in
the source slice), the control-plane subnet name. -/
def azure.GenerateControlPlaneSubnetName (cluster : String) : String :=
  cluster ++ "-controlplane-subnet"

/-- Modelled from the spec: `azure.GeneratePublicLBName` (not in the source
slice), the public load-balancer name. -/
def azure.GeneratePublicLBName (cluster : String) : String := cluster ++ "-api"

/-- Modelled from the spec: `azure.GenerateInternalLBName` (not in the source
slice), the internal load-balancer name. -/
def azure.GenerateInternalLBName (cluster : String) : String := cluster ++ "-internal-lb"

/-- isMachineOutdated checks that no immutable fields have been updated in an
Update request (source lines 245-255): it compares the VM size and nothing
else. -/
def isMachineOutdated (machineSpec : AzureMachineProviderSpec) (vm : VM) : Bool :=
  if machineSpec.vmSize ≠ vm.vmSize then true else false

/-- The scan of the machine registry performed by the ControlPlane arm of
`isNodeJoin` (source lines 267-296): skip non-control-plane machines; for the
first control-plane machine, probe its VM and its startup extension.  A
not-found VM or a not-found extension decides join = false; a VM-get error
with payload is surfaced; otherwise join = true.  Mirrors the source exactly,
including that an extension-get error with payload falls through to
join = true (the source only tests err together with a nil payload there). -/
def Reconciler.scanControlPlane (env : Env) : List Machine → Except String Bool × List Call
  | [] => (.ok false, [])
  | cm :: rest =>
    if !(clusterutil.IsControlPlaneMachine cm) then
      Reconciler.scanControlPlane env rest
    else
      match env.vmGet cm.name with
      | .notFound => (.ok false, [Call.vmGet cm.name])
      | .errWithVM e =>
        (.error ("failed to verify existence of machine " ++ cm.name ++ ": " ++ e),
          [Call.vmGet cm.name])
      | _ =>
        match env.extGet cm.name with
        | .notFound => (.ok false, [Call.vmGet cm.name, Call.extGet cm.name])
        | _ => (.ok true, [Call.vmGet cm.name, Call.extGet cm.name])

/-- isNodeJoin (source lines 257-300): list the machine registry first, then
branch on the machine's role label.  Node always joins; ControlPlane scans
the registry (not excluding the machine itself); any other label is a
configuration error. -/
def Reconciler.isNodeJoin (env : Env) (s : MachineScope) : Except String Bool × List Call :=
  match env.machineList with
  | .error e =>
    (.error ("failed to retrieve machines in cluster: " ++ e), [Call.machineList])
  | .ok machines =>
    if s.setLabel = v1alpha1.Node then
      (.ok true, [Call.machineList])
    else if s.setLabel = v1alpha1.ControlPlane then
      match Reconciler.scanControlPlane env machines with
      | (r, t) => (r, Call.machineList :: t)
    else
      (.error ("Unknown value " ++ s.setLabel ++ " for label set on machine " ++
        s.machineName ++ ", skipping machine creation"), [Call.machineList])

/-- checkControlPlaneMachines (source lines 302-319): decide join; when
joining, require cluster credentials and mint one bootstrap token with the
default TTL.  When not joining the token is the empty string. -/
def Reconciler.checkControlPlaneMachines (env : Env) (s : MachineScope) :
    Except String String × List Call :=
  match Reconciler.isNodeJoin env s with
  | (.error e, t) =>
    (.error ("failed to determine whether machine should join cluster: " ++ e), t)
  | (.ok isJoin, t) =>
    if isJoin then
      match s.clusterConfig with
      | none => (.error "failed to retrieve corev1 client for empty kubeconfig", t)
      | some kubeconfig =>
        match env.createToken kubeconfig DefaultBootstrapTokenTTL with
        | .error e =>
          (.error ("failed to create new bootstrap token: " ++ e),
            t ++ [Call.createToken DefaultBootstrapTokenTTL])
        | .ok tok => (.ok tok, t ++ [Call.createToken DefaultBootstrapTokenTTL])
    else
      (.ok "", t)

/-- Insert-or-replace on the association list modelling the annotations map. -/
def Reconciler.upsert (l : List (String × String)) (k v : String) : List (String × String) :=
  match l with
  | [] => [(k, v)]
  | (k0, v0) :: rest =>
    if k0 = k then (k, v) :: rest else (k0, v0) :: Reconciler.upsert rest k v

/-- Create (source lines 69-139): check control-plane machines (join decision
plus token), build the role-specific network-interface spec, create the
interface, the VM, render the startup script and create the extension — the
extension-creation error is read into err and then ignored (empty if-body,
source lines 124-127) — and finally mark the machine with the provider
annotation. -/
def Reconciler.Create (env : Env) (s : MachineScope) :
    Except String Unit × List Call × MachineScope :=
  match Reconciler.checkControlPlaneMachines env s with
  | (.error e, t) =>
    (.error ("failed to check control plane machines in cluster: " ++ e), t, s)
  | (.ok bootstrapToken, t) =>
    let nicName := s.machineName ++ "-nic"
    let nicSpec? : Option NicSpec :=
      if s.setLabel = v1alpha1.Node then
        some ⟨nicName, azure.GenerateVnetName s.clusterName,
          azure.GenerateNodeSubnetName s.clusterName, "", "", none⟩
      else if s.setLabel = v1alpha1.ControlPlane then
        some ⟨nicName, azure.GenerateVnetName s.clusterName,
          azure.GenerateControlPlaneSubnetName s.clusterName,
          azure.GeneratePublicLBName s.clusterName,
          azure.GenerateInternalLBName s.clusterName, some 0⟩
      else none
    match nicSpec? with
    | none =>
      (.error ("Unknown value " ++ s.setLabel ++ " for label set on machine " ++
        s.machineName ++ ", skipping machine creation"), t, s)
    | some nicSpec =>
      match env.nicCreateOrUpdate nicSpec with
      | some e =>
        (.error ("Unable to create VM network interface: " ++ e),
          t ++ [Call.nicCreateOrUpdate nicName], s)
      | none =>
        let decoded := env.base64Decode s.machineConfig.sshPublicKey
        let vmSpec : VMSpec :=
          ⟨s.machineName, nicName, decoded, s.machineConfig.vmSize,
            s.machineConfig.osDisk, s.machineConfig.image⟩
        match env.vmCreateOrUpdate vmSpec with
        | some e =>
          (.error ("failed to create or get machine: " ++ e),
            t ++ [Call.nicCreateOrUpdate nicName, Call.vmCreateOrUpdate s.machineName], s)
        | none =>
          match env.getVMStartupScript s bootstrapToken with
          | .error e =>
            (.error ("failed to get vm startup script: " ++ e),
              t ++ [Call.nicCreateOrUpdate nicName, Call.vmCreateOrUpdate s.machineName], s)
          | .ok scriptData =>
            let extSpec : ExtSpec :=
              ⟨"startupScript", s.machineName, env.base64Encode scriptData⟩
            let _extErr := env.extCreateOrUpdate extSpec
            let annots1 :=
              match s.annots with
              | none => [("cluster-api-provider-azure", "true")]
              | some a => Reconciler.upsert a "cluster-api-provider-azure" "true"
            (.ok (),
              t ++ [Call.nicCreateOrUpdate nicName, Call.vmCreateOrUpdate s.machineName,
                Call.extCreateOrUpdate s.machineName],
              { s with annots := some annots1 })

/-- Update (source lines 142-173): read the VM, translate it, fail on the
immutable-field check, and otherwise do nothing (tag reconciliation is a
commented-out extension point). -/
def Reconciler.Update (env : Env) (s : MachineScope) : Except String Unit × List Call :=
  match env.vmGet s.machineName with
  | .notFound => (.error "failed to get vm", [Call.vmGet s.machineName])
  | .errWithVM e => (.error ("failed to get vm: " ++ e), [Call.vmGet s.machineName])
  | .wrongType => (.error "returned incorrect vm interface", [Call.vmGet s.machineName])
  | .found vm =>
    if isMachineOutdated s.machineConfig (converters.SDKToVM vm) then
      (.error "found attempt to change immutable state", [Call.vmGet s.machineName])
    else
      (.ok (), [Call.vmGet s.machineName])

/-- isVMExists (source lines 336-376): read the VM (not-found is a clean
negative, an error with payload or a wrong payload type is an error), read
the startup extension the same way, and on success record the VM identifier
and provisioning state into the status. -/
def Reconciler.isVMExists (env : Env) (s : MachineScope) :
    Except String Bool × List Call × List StatusWrite × MachineScope :=
  match env.vmGet s.machineName with
  | .notFound => (.ok false, [Call.vmGet s.machineName], [], s)
  | .errWithVM e => (.error ("Failed to get vm: " ++ e), [Call.vmGet s.machineName], [], s)
  | .wrongType =>
    (.error "returned incorrect vm interface", [Call.vmGet s.machineName], [], s)
  | .found vm =>
    match env.extGet s.machineName with
    | .notFound =>
      (.ok false, [Call.vmGet s.machineName, Call.extGet s.machineName], [], s)
    | .errWithExt e =>
      (.error ("failed to get vm extension: " ++ e),
        [Call.vmGet s.machineName, Call.extGet s.machineName], [], s)
    | .found =>
      (.ok true, [Call.vmGet s.machineName, Call.extGet s.machineName],
        [StatusWrite.vmId vm.id, StatusWrite.vmState vm.provisioningState],
        { s with status := ⟨some vm.id, some vm.provisioningState⟩ })

/-- Containment of `needle` inside the tail-closure of a character list; the
model of Go's `strings.Contains`. -/
def strContainsAux (needle : List Char) : List Char → Bool
  | [] => needle.isPrefixOf []
  | c :: rest => needle.isPrefixOf (c :: rest) || strContainsAux needle rest

/-- Go's `strings.Contains hay needle`: needle occurs as a contiguous
substring of hay (the empty needle always occurs). -/
def strContains (hay needle : String) : Bool :=
  strContainsAux needle.data hay.data

/-- The inner scan of one inventory page (source lines 402-411): return the
identity of the first node whose provider-id contains the instance id. -/
def findNodeRef (instanceID : String) : List corev1.Node → Option ObjectReference
  | [] => none
  | n :: rest =>
    if strContains n.providerID instanceID then
      some ⟨n.kind, n.apiVersion, n.name⟩
    else
      findNodeRef instanceID rest

/-- The pagination loop of getNodeReference (source lines 396-417): visit the
pages delivered by the continuation-token chain in order; a failing page
query aborts with an error; the first in-page match returns; exhausting the
chain yields the not-found error. -/
def pageScan (instanceID machineName : String) :
    List (Except String (List corev1.Node)) → Except String ObjectReference × List Call
  | [] => (.error ("no node found for machine " ++ machineName), [])
  | page :: rest =>
    match page with
    | .error e => (.error ("failed to query cluster nodes: " ++ e), [Call.nodesList])
    | .ok nodes =>
      match findNodeRef instanceID nodes with
      | some ref => (.ok ref, [Call.nodesList])
      | none =>
        match pageScan instanceID machineName rest with
        | (r, t) => (r, Call.nodesList :: t)

/-- getNodeReference (source lines 378-420): a nil VM identifier or nil
cluster credentials are precondition errors; a failing client construction is
an error; otherwise run the paginated scan. -/
def getNodeReference (env : Env) (scope : MachineScope) :
    Except String ObjectReference × List Call :=
  match scope.status.VMID with
  | none => (.error ("instance id is empty for machine " ++ scope.machineName), [])
  | some instanceID =>
    match scope.clusterConfig with
    | none =>
      (.error ("failed to retrieve corev1 client for empty kubeconfig " ++
        scope.clusterName), [])
    | some kubeconfig =>
      match env.coreV1Client kubeconfig with
      | .error e =>
        (.error ("failed to retrieve corev1 client for cluster " ++
          scope.clusterName ++ ": " ++ e), [])
      | .ok _ => pageScan instanceID scope.machineName env.nodePages

/-- Exists (source lines 176-214): run isVMExists; on a clean negative or an
error propagate it; otherwise require state Succeeded or Updating, backfill
the provider id once, and resolve the node reference at most once, treating a
resolution failure as non-fatal. -/
def Reconciler.Exists (env : Env) (s : MachineScope) :
    Except String Bool × List Call × List StatusWrite × MachineScope :=
  match Reconciler.isVMExists env s with
  | (.error e, t, w, s1) => (.error e, t, w, s1)
  | (.ok false, t, w, s1) => (.ok false, t, w, s1)
  | (.ok true, t, w, s1) =>
    let st := (s1.status.VMState).getD ""
    if st = v1alpha1.VMStateSucceeded ∨ st = v1alpha1.VMStateUpdating then
      let s2 :=
        if s1.providerID = none ∨ s1.providerID = some "" then
          { s1 with providerID := some ("azure:////" ++ (s1.status.VMID).getD "") }
        else s1
      match s2.nodeRef with
      | some _ => (.ok true, t, w, s2)
      | none =>
        match getNodeReference env s2 with
        | (.error _, t2) => (.ok true, t ++ t2, w, s2)
        | (.ok ref, t2) =>
          (.ok true, t ++ t2, w ++ [StatusWrite.nodeRef ref],
            { s2 with nodeRef := some ref })
    else
      (.ok false, t, w, s1)

/-- Delete (source lines 217-238): delete the VM first; a failure aborts
before the interface is touched; then delete the interface. -/
def Reconciler.Delete (env : Env) (s : MachineScope) : Except String Unit × List Call :=
  match env.vmDelete s.machineName with
  | some e => (.error ("failed to delete machine: " ++ e), [Call.vmDelete s.machineName])
  | none =>
    let nicName := s.machineName ++ "-nic"
    match env.nicDelete nicName (azure.GenerateVnetName s.clusterName) with
    | some e =>
      (.error ("Unable to delete network interface: " ++ e),
        [Call.vmDelete s.machineName, Call.nicDelete nicName])
    | none => (.ok (), [Call.vmDelete s.machineName, Call.nicDelete nicName])

/-- A call that mutates provider state (create-or-update or delete). -/
def isMutation : Call → Bool
  | Call.nicCreateOrUpdate _ => true
  | Call.vmCreateOrUpdate _ => true
  | Call.extCreateOrUpdate _ => true
  | Call.vmDelete _ => true
  | Call.nicDelete _ => true
  | _ => false

/-- A bootstrap-token issuance call. -/
def isTokenCall : Call → Bool
  | Call.createToken _ => true
  | _ => false

/-- A call that reads or writes the startup-extension resource. -/
def touchesExtension : Call → Bool
  | Call.extGet _ => true
  | Call.extCreateOrUpdate _ => true
  | _ => false

/-- A write to the VMID status field. -/
def isVMIDWrite : StatusWrite → Bool
  | StatusWrite.vmId _ => true
  | _ => false

/-- A write to the VMState status field. -/
def isVMStateWrite : StatusWrite → Bool
  | StatusWrite.vmState _ => true
  | _ => false

/-- A write to the NodeRef status field. -/
def isNodeRefWrite : StatusWrite → Bool
  | StatusWrite.nodeRef _ => true
  | _ => false

/-! Concrete fixtures used to instantiate the theorems below. -/

/-- A provisioned virtual machine in state Succeeded. -/
def okVM : VirtualMachine := ⟨"vm-id-1", "Succeeded", "size1", "disk", "img"⟩

/-- A fully successful environment: every client call succeeds, the registry
is empty, the node inventory has no pages. -/
def baseEnv : Env where
  machineList := .ok []
  vmGet := fun _ => .found okVM
  extGet := fun _ => .found
  nicCreateOrUpdate := fun _ => none
  vmCreateOrUpdate := fun _ => none
  extCreateOrUpdate := fun _ => none
  vmDelete := fun _ => none
  nicDelete := fun _ _ => none
  createToken := fun _ _ => .ok "tok"
  getVMStartupScript := fun _ _ => .ok "script"
  base64Decode := fun x => x
  base64Encode := fun x => x
  coreV1Client := fun _ => .ok ()
  nodePages := []

/-- A worker machine scope with credentials present and an empty status. -/
def baseScope : MachineScope where
  machineName := "m1"
  setLabel := v1alpha1.Node
  providerID := none
  nodeRef := none
  status := ⟨none, none⟩
  clusterName := "c1"
  clusterConfig := some "kube"
  machineConfig := ⟨"size1", "key", "disk", "img"⟩
  annots := none

/-! Claim C3 -/

/-- C3: whenever the desired VM size differs from the provider-observed VM
size, Update returns the immutable-violation error, its external calls are
exactly the one VM read (so nothing follows the read), none of its calls
mutates provider state, and the immutable check compares exactly the VM size
field: it is true precisely when the sizes differ, and its value depends on
no other field of either record. -/
theorem C3_updateImmutable (env : Env) (s : MachineScope) (vm : VirtualMachine)
    (hget : env.vmGet s.machineName = .found vm)
    (hdiff : s.machineConfig.vmSize ≠ vm.vmSize) :
    (Reconciler.Update env s).1 = .error "found attempt to change immutable state" ∧
    (Reconciler.Update env s).2 = [Call.vmGet s.machineName] ∧
    (∀ c ∈ (Reconciler.Update env s).2, isMutation c = false) ∧
    (∀ spec vmo, isMachineOutdated spec vmo = true ↔ spec.vmSize ≠ vmo.vmSize) ∧
    (∀ spec1 spec2 vmo1 vmo2, spec1.vmSize = spec2.vmSize → vmo1.vmSize = vmo2.vmSize →
      isMachineOutdated spec1 vmo1 = isMachineOutdated spec2 vmo2) := by
  have hout : isMachineOutdated s.machineConfig (converters.SDKToVM vm) = true := by
    simp [isMachineOutdated, converters.SDKToVM, hdiff]
  refine ⟨?_, ?_, ?_, ?_, ?_⟩
  · simp [Reconciler.Update, hget, hout]
  · simp [Reconciler.Update, hget, hout]
  · intro c hc
    simp [Reconciler.Update, hget, hout] at hc
    subst hc
    rfl
  · intro spec vmo
    simp [isMachineOutdated]
  · intro spec1 spec2 vmo1 vmo2 h1 h2
    simp [isMachineOutdated, h1, h2]

/-- Scope whose desired VM size differs from the observed one. -/
def c3Scope : MachineScope := { baseScope with machineConfig := ⟨"size2", "key", "disk", "img"⟩ }

/-- C3 witness: at a concrete scope whose desired size differs from the
observed VM, Update returns the immutable-violation error. -/
theorem C3_updateImmutable_witness :
    (Reconciler.Update baseEnv c3Scope).1 = .error "found attempt to change immutable state" :=
  (C3_updateImmutable baseEnv c3Scope okVM rfl (by decide)).1

/-! Claim C7 -/

/-- C7: in Delete, a failing VM deletion surfaces the error and the trace is
exactly the single VM-delete call (the interface is never deleted); in every
invocation the trace is either that single call, or the VM delete followed by
the interface delete with the VM delete having succeeded — so VM deletion
strictly precedes interface deletion. -/
theorem C7_deleteOrdering (env : Env) (s : MachineScope) :
    (∀ e, env.vmDelete s.machineName = some e →
      (Reconciler.Delete env s).1 = .error ("failed to delete machine: " ++ e) ∧
      (Reconciler.Delete env s).2 = [Call.vmDelete s.machineName]) ∧
    ((Reconciler.Delete env s).2 = [Call.vmDelete s.machineName] ∨
      ((Reconciler.Delete env s).2 =
        [Call.vmDelete s.machineName, Call.nicDelete (s.machineName ++ "-nic")] ∧
        env.vmDelete s.machineName = none)) := by
  constructor
  · intro e he
    constructor
    · simp [Reconciler.Delete, he]
    · simp [Reconciler.Delete, he]
  · cases hv : env.vmDelete s.machineName with
    | some e =>
      left
      simp [Reconciler.Delete, hv]
    | none =>
      right
      refine ⟨?_, rfl⟩
      cases hn : env.nicDelete (s.machineName ++ "-nic") (azure.GenerateVnetName s.clusterName) with
      | some e => simp [Reconciler.Delete, hv, hn]
      | none => simp [Reconciler.Delete, hv, hn]

/-- Environment whose VM deletion fails. -/
def c7Env : Env := { baseEnv with vmDelete := fun _ => some "boom" }

/-- C7 witness: with a failing VM deletion, Delete surfaces the error and the
interface-delete call never happens. -/
theorem C7_deleteOrdering_witness :
    (Reconciler.Delete c7Env baseScope).1 = .error "failed to delete machine: boom" ∧
    (Reconciler.Delete c7Env baseScope).2 = [Call.vmDelete "m1"] :=
  (C7_deleteOrdering c7Env baseScope).1 "boom" rfl

/-! Claim C8 -/

/-- C8: when every step of Create before the extension creation succeeds (the
control-plane check yields a token, the role label is valid, the interface
and VM upserts succeed, the startup script renders), Create returns success
even though the extension-creation call returns an error — and the
extension-creation call is indeed performed. -/
theorem C8_extensionErrorSwallowed (env : Env) (s : MachineScope) (tok e : String)
    (hcheck : (Reconciler.checkControlPlaneMachines env s).1 = .ok tok)
    (hrole : s.setLabel = v1alpha1.Node ∨ s.setLabel = v1alpha1.ControlPlane)
    (hnic : ∀ spec, env.nicCreateOrUpdate spec = none)
    (hvm : ∀ spec, env.vmCreateOrUpdate spec = none)
    (hscript : ∀ t, ∃ d, env.getVMStartupScript s t = .ok d)
    (hext : ∀ spec, env.extCreateOrUpdate spec = some e) :
    (Reconciler.Create env s).1 = .ok () ∧
    Call.extCreateOrUpdate s.machineName ∈ (Reconciler.Create env s).2.1 := by
  rcases hc : Reconciler.checkControlPlaneMachines env s with ⟨r, t⟩
  rw [hc] at hcheck
  subst hcheck
  obtain ⟨d, hd⟩ := hscript tok
  rcases hrole with hrole | hrole
  · constructor
    · simp [Reconciler.Create, hc, hrole, hnic, hvm, hd, hext]
    · simp [Reconciler.Create, hc, hrole, hnic, hvm, hd, hext]
  · have hne : s.setLabel ≠ v1alpha1.Node := by
      rw [hrole]
      decide
    constructor
    · simp [Reconciler.Create, hc, hrole, hne, hnic, hvm, hd, hext,
        v1alpha1.Node, v1alpha1.ControlPlane]
    · simp [Reconciler.Create, hc, hrole, hne, hnic, hvm, hd, hext,
        v1alpha1.Node, v1alpha1.ControlPlane]

/-- Environment whose extension creation always fails. -/
def c8Env : Env := { baseEnv with extCreateOrUpdate := fun _ => some "extfail" }

/-- C8 witness: with a failing extension creation and every earlier step
succeeding, Create still returns success and did call the extension client. -/
theorem C8_extensionErrorSwallowed_witness :
    (Reconciler.Create c8Env baseScope).1 = .ok () ∧
    Call.extCreateOrUpdate "m1" ∈ (Reconciler.Create c8Env baseScope).2.1 :=
  C8_extensionErrorSwallowed c8Env baseScope "tok" "extfail" rfl (Or.inl rfl)
    (fun _ => rfl) (fun _ => rfl) (fun _ => ⟨"script", rfl⟩) (fun _ => rfl)

/-! Claim C10 -/

/-- Environment whose VM deletion is denied. -/
def c10Env : Env := { baseEnv with vmDelete := fun _ => some "denied" }

/-- C10 counterexample: when the VM deletion fails, Delete performs exactly
one external call, not two — the claim "Delete issues exactly two external
calls" is false on this input. -/
theorem C10_counterexample :
    (Reconciler.Delete c10Env baseScope).2 = [Call.vmDelete "m1"] ∧
    (Reconciler.Delete c10Env baseScope).2.length ≠ 2 := by
  constructor
  · rfl
  · decide

/-- C10 (amended): Delete issues at most two external calls; when the VM
deletion succeeds they are exactly the VM delete followed by the interface
delete; and no call of Delete ever reads, writes or deletes the
startup-extension resource. -/
theorem C10_deleteFrame (env : Env) (s : MachineScope) :
    (Reconciler.Delete env s).2.length ≤ 2 ∧
    (env.vmDelete s.machineName = none →
      (Reconciler.Delete env s).2 =
        [Call.vmDelete s.machineName, Call.nicDelete (s.machineName ++ "-nic")]) ∧
    (∀ c ∈ (Reconciler.Delete env s).2, touchesExtension c = false) := by
  refine ⟨?_, ?_, ?_⟩
  · cases hv : env.vmDelete s.machineName with
    | some e => simp [Reconciler.Delete, hv]
    | none =>
      cases hn : env.nicDelete (s.machineName ++ "-nic") (azure.GenerateVnetName s.clusterName) with
      | some e => simp [Reconciler.Delete, hv, hn]
      | none => simp [Reconciler.Delete, hv, hn]
  · intro hv
    cases hn : env.nicDelete (s.machineName ++ "-nic") (azure.GenerateVnetName s.clusterName) with
    | some e => simp [Reconciler.Delete, hv, hn]
    | none => simp [Reconciler.Delete, hv, hn]
  · intro c hc
    cases hv : env.vmDelete s.machineName with
    | some e =>
      simp [Reconciler.Delete, hv] at hc
      subst hc
      rfl
    | none =>
      cases hn : env.nicDelete (s.machineName ++ "-nic") (azure.GenerateVnetName s.clusterName) with
      | some e =>
        simp [Reconciler.Delete, hv, hn] at hc
        rcases hc with hc | hc
        all_goals subst hc
        all_goals rfl
      | none =>
        simp [Reconciler.Delete, hv, hn] at hc
        rcases hc with hc | hc
        all_goals subst hc
        all_goals rfl

/-- C10 witness: with a succeeding VM deletion the trace is exactly the two
deletes. -/
theorem C10_deleteFrame_witness :
    (Reconciler.Delete baseEnv baseScope).2 =
      [Call.vmDelete "m1", Call.nicDelete ("m1" ++ "-nic")] :=
  (C10_deleteFrame baseEnv baseScope).2.1 rfl


/-! Claim C4 -/

/-- Scope carrying an unknown role label. -/
def c4Scope : MachineScope := { baseScope with setLabel := "weird" }

/-- C4 counterexample: for a machine whose role label is "weird" (neither
Node nor ControlPlane), Update returns success rather than a configuration
error — Update never inspects the role label — and Create performs one
external call (the machine-registry list) before failing, not zero. -/
theorem C4_counterexample :
    (Reconciler.Update baseEnv c4Scope).1 = .ok () ∧
    (Reconciler.Create baseEnv c4Scope).2.1 = [Call.machineList] := ⟨rfl, rfl⟩

/-- C4 (amended): for every machine whose role label is neither Node nor
ControlPlane (and with the registry list succeeding), the join decision and
Create fail with the unknown-label configuration error, their only external
call is the machine-registry list — in particular no provider-mutating call
is made and the scope is untouched — while Update ignores the role label
entirely: its outcome is identical for every label value. -/
theorem C4_unknownRole (env : Env) (s : MachineScope) (ms : List Machine)
    (hlist : env.machineList = .ok ms)
    (h1 : s.setLabel ≠ v1alpha1.Node) (h2 : s.setLabel ≠ v1alpha1.ControlPlane) :
    (∃ e, (Reconciler.isNodeJoin env s).1 = .error e) ∧
    (Reconciler.isNodeJoin env s).2 = [Call.machineList] ∧
    (∃ e, (Reconciler.Create env s).1 = .error e) ∧
    (Reconciler.Create env s).2.1 = [Call.machineList] ∧
    (Reconciler.Create env s).2.2 = s ∧
    (∀ c ∈ (Reconciler.Create env s).2.1, isMutation c = false) ∧
    (∀ label, Reconciler.Update env { s with setLabel := label } = Reconciler.Update env s) := by
  have hj : Reconciler.isNodeJoin env s =
      (.error ("Unknown value " ++ s.setLabel ++ " for label set on machine " ++
        s.machineName ++ ", skipping machine creation"), [Call.machineList]) := by
    simp [Reconciler.isNodeJoin, hlist, h1, h2]
  have hcreate : Reconciler.Create env s =
      (.error ("failed to check control plane machines in cluster: " ++
        ("failed to determine whether machine should join cluster: " ++
          ("Unknown value " ++ s.setLabel ++ " for label set on machine " ++
            s.machineName ++ ", skipping machine creation"))), [Call.machineList], s) := by
    simp [Reconciler.Create, Reconciler.checkControlPlaneMachines, hj]
  refine ⟨⟨_, by rw [hj]⟩, by rw [hj], ⟨_, by rw [hcreate]⟩, by rw [hcreate],
    by rw [hcreate], ?_, ?_⟩
  · intro c hc
    rw [hcreate] at hc
    simp at hc
    subst hc
    rfl
  · intro label
    rfl

/-- C4 witness: at the concrete unknown-role scope the join decision errors
and Create leaves the scope untouched. -/
theorem C4_unknownRole_witness :
    (∃ e, (Reconciler.isNodeJoin baseEnv c4Scope).1 = .error e) ∧
    (Reconciler.Create baseEnv c4Scope).2.2 = c4Scope :=
  ⟨(C4_unknownRole baseEnv c4Scope [] rfl (by decide) (by decide)).1,
   (C4_unknownRole baseEnv c4Scope [] rfl (by decide) (by decide)).2.2.2.2.1⟩

/-! Claim C1 -/

/-- A registry of machines none of which is a control-plane machine makes the
scan decide join = false with no peer probes. -/
theorem scanControlPlane_no_cp (env : Env) :
    ∀ ms : List Machine, (∀ m ∈ ms, clusterutil.IsControlPlaneMachine m = false) →
      Reconciler.scanControlPlane env ms = (.ok false, []) := by
  intro ms
  induction ms with
  | nil => intro _; rfl
  | cons cm rest ih =>
    intro h
    have hcm := h cm (List.mem_cons_self cm rest)
    have hrest := ih fun m hm => h m (List.mem_cons_of_mem cm hm)
    simp [Reconciler.scanControlPlane, hcm, hrest]

/-- The registry scan decides on the first control-plane machine in registry
order: the scan of the whole registry equals the scan of that machine alone. -/
theorem scanControlPlane_first (env : Env) :
    ∀ (ms : List Machine) (cm : Machine),
      ms.find? clusterutil.IsControlPlaneMachine = some cm →
      Reconciler.scanControlPlane env ms = Reconciler.scanControlPlane env [cm] := by
  intro ms
  induction ms with
  | nil =>
    intro cm h
    simp at h
  | cons a rest ih =>
    intro cm h
    cases ha : clusterutil.IsControlPlaneMachine a with
    | true =>
      rw [List.find?_cons_of_pos _ ha] at h
      injection h with h
      subst h
      simp [Reconciler.scanControlPlane, ha]
    | false =>
      rw [List.find?_cons_of_neg _ (by simp [ha])] at h
      have hres := ih cm h
      simp [Reconciler.scanControlPlane, ha, hres]

/-- Behaviour of the scan on the single control-plane machine it decides on:
a not-found VM or a found VM with a not-found extension decide join = false,
a found VM with a found extension decides join = true. -/
theorem scanControlPlane_single (env : Env) (cm : Machine)
    (hcp : clusterutil.IsControlPlaneMachine cm = true) :
    (env.vmGet cm.name = .notFound →
      (Reconciler.scanControlPlane env [cm]).1 = .ok false) ∧
    (∀ vm, env.vmGet cm.name = .found vm → env.extGet cm.name = .notFound →
      (Reconciler.scanControlPlane env [cm]).1 = .ok false) ∧
    (∀ vm, env.vmGet cm.name = .found vm → env.extGet cm.name = .found →
      (Reconciler.scanControlPlane env [cm]).1 = .ok true) := by
  refine ⟨?_, ?_, ?_⟩
  · intro hvm
    simp [Reconciler.scanControlPlane, hcp, hvm]
  · intro vm hvm hext
    simp [Reconciler.scanControlPlane, hcp, hvm, hext]
  · intro vm hvm hext
    simp [Reconciler.scanControlPlane, hcp, hvm, hext]

/-- Control-plane scope named cp-1. -/
def c1Scope : MachineScope :=
  { baseScope with machineName := "cp-1", setLabel := v1alpha1.ControlPlane }

/-- Environment whose registry holds exactly the machine being reconciled,
itself a control-plane machine, with a provisioned VM and extension. -/
def c1Env : Env := { baseEnv with machineList := .ok [⟨"cp-1", v1alpha1.ControlPlane⟩] }

/-- C1 counterexample: the registry contains no control-plane machine other
than the machine itself, yet the join decision returns join = true — the
scan does not exclude the machine being reconciled, so the claim that a
ControlPlane machine with no other control-plane machine in the registry
gets join = false is false on this input. -/
theorem C1_counterexample :
    c1Env.machineList = .ok [⟨"cp-1", v1alpha1.ControlPlane⟩] ∧
    c1Scope.machineName = "cp-1" ∧
    (Reconciler.isNodeJoin c1Env c1Scope).1 = .ok true := ⟨rfl, rfl, rfl⟩

/-- C1 (amended): when the machine-registry list succeeds, the join decision
returns join = true for every Node-role machine; for a ControlPlane-role
machine it returns join = false when the registry contains no control-plane
machine at all (the scan does not exclude the machine being reconciled), and
for the first control-plane machine found in registry order — possibly the
machine itself — it returns join = false when that machine's VM is not found,
join = false when its VM is found but its startup extension is not found, and
join = true when both are found. -/
theorem C1_joinDecision (env : Env) (s : MachineScope) (ms : List Machine)
    (hlist : env.machineList = .ok ms) :
    (s.setLabel = v1alpha1.Node → (Reconciler.isNodeJoin env s).1 = .ok true) ∧
    (s.setLabel = v1alpha1.ControlPlane →
      ((∀ m ∈ ms, clusterutil.IsControlPlaneMachine m = false) →
        (Reconciler.isNodeJoin env s).1 = .ok false) ∧
      (∀ cm, ms.find? clusterutil.IsControlPlaneMachine = some cm →
        ((env.vmGet cm.name = .notFound → (Reconciler.isNodeJoin env s).1 = .ok false) ∧
         (∀ vm, env.vmGet cm.name = .found vm → env.extGet cm.name = .notFound →
            (Reconciler.isNodeJoin env s).1 = .ok false) ∧
         (∀ vm, env.vmGet cm.name = .found vm → env.extGet cm.name = .found →
            (Reconciler.isNodeJoin env s).1 = .ok true)))) := by
  constructor
  · intro hn
    simp [Reconciler.isNodeJoin, hlist, hn]
  · intro hcp
    have hjoin : Reconciler.isNodeJoin env s =
        match Reconciler.scanControlPlane env ms with
        | (r, t) => (r, Call.machineList :: t) := by
      simp [Reconciler.isNodeJoin, hlist, hcp, v1alpha1.Node, v1alpha1.ControlPlane]
    constructor
    · intro hnone
      rw [hjoin, scanControlPlane_no_cp env ms hnone]
    · intro cm hfind
      have hcm : clusterutil.IsControlPlaneMachine cm = true := List.find?_some hfind
      have hfirst := scanControlPlane_first env ms cm hfind
      have hsingle := scanControlPlane_single env cm hcm
      refine ⟨?_, ?_, ?_⟩
      · intro hvm
        rw [hjoin, hfirst]
        have hres := hsingle.1 hvm
        rcases hx : Reconciler.scanControlPlane env [cm] with ⟨r, t⟩
        rw [hx] at hres
        simpa using hres
      · intro vm hvm hext
        rw [hjoin, hfirst]
        have hres := hsingle.2.1 vm hvm hext
        rcases hx : Reconciler.scanControlPlane env [cm] with ⟨r, t⟩
        rw [hx] at hres
        simpa using hres
      · intro vm hvm hext
        rw [hjoin, hfirst]
        have hres := hsingle.2.2 vm hvm hext
        rcases hx : Reconciler.scanControlPlane env [cm] with ⟨r, t⟩
        rw [hx] at hres
        simpa using hres

/-- C1 witness: a Node-role machine joins, and a ControlPlane-role machine
whose first registry control-plane machine has a provisioned VM and extension
joins. -/
theorem C1_joinDecision_witness :
    (Reconciler.isNodeJoin baseEnv baseScope).1 = .ok true ∧
    (Reconciler.isNodeJoin c1Env c1Scope).1 = .ok true :=
  ⟨(C1_joinDecision baseEnv baseScope [] rfl).1 rfl,
   (((C1_joinDecision c1Env c1Scope [⟨"cp-1", v1alpha1.ControlPlane⟩] rfl).2 rfl).2
     ⟨"cp-1", v1alpha1.ControlPlane⟩ rfl).2.2 okVM rfl rfl⟩


/-! Claim C2 -/

/-- Environment whose VM is mid-creation and whose extension query fails with
a payload. -/
def c2Env : Env := { baseEnv with
  vmGet := fun _ => .found ⟨"id1", "Creating", "size1", "disk", "img"⟩,
  extGet := fun _ => .errWithExt "boom" }

/-- C2 counterexample: the VM exists and its provisioning state (Creating) is
neither Succeeded nor Updating, yet Exists returns an error rather than
(false, nil), because the extension query — made before the state check —
failed with a payload. -/
theorem C2_counterexample :
    c2Env.vmGet baseScope.machineName = .found ⟨"id1", "Creating", "size1", "disk", "img"⟩ ∧
    (Reconciler.Exists c2Env baseScope).1 = .error "failed to get vm extension: boom" :=
  ⟨rfl, rfl⟩

/-- C2 (amended): Exists returns (false, nil) whenever the VM is absent;
whenever the VM and its startup extension both exist but the provisioning
state is neither Succeeded nor Updating; and whenever the VM exists but its
startup extension is absent.  Exists returns (true, nil) whenever the state
is Succeeded or Updating and the extension exists, regardless of whether
node-reference resolution succeeds (the node inventory, the credentials and
the client construction are arbitrary in the last part). -/
theorem C2_existsSemantics (env : Env) (s : MachineScope) :
    (env.vmGet s.machineName = .notFound → (Reconciler.Exists env s).1 = .ok false) ∧
    (∀ vm, env.vmGet s.machineName = .found vm → env.extGet s.machineName = .found →
      vm.provisioningState ≠ v1alpha1.VMStateSucceeded →
      vm.provisioningState ≠ v1alpha1.VMStateUpdating →
      (Reconciler.Exists env s).1 = .ok false) ∧
    (∀ vm, env.vmGet s.machineName = .found vm → env.extGet s.machineName = .notFound →
      (Reconciler.Exists env s).1 = .ok false) ∧
    (∀ vm, env.vmGet s.machineName = .found vm → env.extGet s.machineName = .found →
      (vm.provisioningState = v1alpha1.VMStateSucceeded ∨
        vm.provisioningState = v1alpha1.VMStateUpdating) →
      (Reconciler.Exists env s).1 = .ok true) := by
  have hex : ∀ vm, env.vmGet s.machineName = .found vm → env.extGet s.machineName = .found →
      Reconciler.isVMExists env s =
        (.ok true, [Call.vmGet s.machineName, Call.extGet s.machineName],
          [StatusWrite.vmId vm.id, StatusWrite.vmState vm.provisioningState],
          { s with status := ⟨some vm.id, some vm.provisioningState⟩ }) := by
    intro vm hvm hext
    simp [Reconciler.isVMExists, hvm, hext]
  refine ⟨?_, ?_, ?_, ?_⟩
  · intro hvm
    simp [Reconciler.Exists, Reconciler.isVMExists, hvm]
  · intro vm hvm hext h1 h2
    simp [Reconciler.Exists, hex vm hvm hext, h1, h2]
  · intro vm hvm hext
    simp [Reconciler.Exists, Reconciler.isVMExists, hvm, hext]
  · intro vm hvm hext hor
    simp only [Reconciler.Exists, hex vm hvm hext]
    rw [if_pos (by simpa using hor)]
    split
    · rfl
    · split
      · rfl
      · rfl

/-- Environment whose VM is absent. -/
def c2aEnv : Env := { baseEnv with vmGet := fun _ => .notFound }

/-- C2 witness: with the VM absent Exists reports (false, nil); with the VM
Succeeded and the extension present it reports (true, nil) even though the
node inventory is empty and resolution cannot succeed. -/
theorem C2_existsSemantics_witness :
    (Reconciler.Exists c2aEnv baseScope).1 = .ok false ∧
    (Reconciler.Exists baseEnv baseScope).1 = .ok true :=
  ⟨(C2_existsSemantics c2aEnv baseScope).1 rfl,
   (C2_existsSemantics baseEnv baseScope).2.2.2 okVM rfl rfl (Or.inl rfl)⟩

/-! Claim C5 -/

/-- Soundness of the in-page scan: a returned reference is the identity of a
node of the page whose provider-id contains the instance id. -/
theorem findNodeRef_sound (instanceID : String) :
    ∀ (nodes : List corev1.Node) (ref : ObjectReference),
      findNodeRef instanceID nodes = some ref →
      ∃ n ∈ nodes, strContains n.providerID instanceID = true ∧
        ref = ⟨n.kind, n.apiVersion, n.name⟩ := by
  intro nodes
  induction nodes with
  | nil =>
    intro ref h
    simp [findNodeRef] at h
  | cons n rest ih =>
    intro ref h
    by_cases hc : strContains n.providerID instanceID = true
    · simp only [findNodeRef, hc, if_true] at h
      injection h with h
      exact ⟨n, List.mem_cons_self n rest, hc, h.symm⟩
    · simp only [findNodeRef, hc, if_false] at h
      obtain ⟨m, hm, hcm, he⟩ := ih ref h
      exact ⟨m, List.mem_cons_of_mem n hm, hcm, he⟩

/-- The in-page scan distributes over page concatenation, preferring the
first page. -/
theorem findNodeRef_append (instanceID : String) :
    ∀ l1 l2, findNodeRef instanceID (l1 ++ l2) =
      (match findNodeRef instanceID l1 with
       | some ref => some ref
       | none => findNodeRef instanceID l2) := by
  intro l1 l2
  induction l1 with
  | nil => simp [findNodeRef]
  | cons n rest ih =>
    by_cases hc : strContains n.providerID instanceID = true
    · simp [findNodeRef, hc]
    · simp [findNodeRef, hc, ih]

/-- On an all-successful page chain, the paginated scan returns the first
match of the concatenation of all pages, and the not-found error when no
node matches — it visits every page before giving up. -/
theorem pageScan_flatten (instanceID machineName : String) :
    ∀ pages : List (List corev1.Node),
      (pageScan instanceID machineName (pages.map Except.ok)).1 =
        (match findNodeRef instanceID pages.flatten with
         | some ref => .ok ref
         | none => .error ("no node found for machine " ++ machineName)) := by
  intro pages
  induction pages with
  | nil => simp [pageScan, findNodeRef]
  | cons p rest ih =>
    cases hf : findNodeRef instanceID p with
    | some ref =>
      simp [pageScan, hf, findNodeRef_append]
    | none =>
      simp only [List.map_cons, pageScan, hf, List.flatten_cons, findNodeRef_append]
      rcases hps : pageScan instanceID machineName (rest.map Except.ok) with ⟨r, t⟩
      rw [hps] at ih
      simpa using ih

/-- Soundness of the paginated scan: a returned reference comes from a node
of one of the successfully delivered pages whose provider-id contains the
instance id — never from anywhere else. -/
theorem pageScan_sound (instanceID machineName : String) :
    ∀ (pages : List (Except String (List corev1.Node))) (ref : ObjectReference),
      (pageScan instanceID machineName pages).1 = .ok ref →
      ∃ nodes, Except.ok nodes ∈ pages ∧ ∃ n ∈ nodes,
        strContains n.providerID instanceID = true ∧
        ref = ⟨n.kind, n.apiVersion, n.name⟩ := by
  intro pages
  induction pages with
  | nil =>
    intro ref h
    simp [pageScan] at h
  | cons page rest ih =>
    intro ref h
    cases page with
    | error e => simp [pageScan] at h
    | ok nodes =>
      cases hf : findNodeRef instanceID nodes with
      | some r2 =>
        simp only [pageScan, hf] at h
        injection h with h
        obtain ⟨n, hn, hcn, he⟩ := findNodeRef_sound instanceID nodes r2 hf
        exact ⟨nodes, by simp, n, hn, hcn, by rw [← h, he]⟩
      | none =>
        simp only [pageScan, hf] at h
        rcases hps : pageScan instanceID machineName rest with ⟨r, t⟩
        rw [hps] at h
        simp at h
        obtain ⟨nodes2, hmem, hrest⟩ := ih ref (by rw [hps]; simpa using h)
        exact ⟨nodes2, List.mem_cons_of_mem _ hmem, hrest⟩

/-- Scope whose recorded VM identifier is the empty string. -/
def c5Scope : MachineScope := { baseScope with status := ⟨some "", none⟩ }

/-- Environment with a single inventory page holding one node whose
provider-id does not mention any VM of this machine. -/
def c5Env : Env :=
  { baseEnv with nodePages := [.ok [⟨"Node", "v1", "n1", "azure-something-else"⟩]] }

/-- C5 counterexample: an empty-string VM identifier is not rejected as a
precondition error — only a nil identifier is — and since every provider-id
contains the empty substring, resolution returns the first listed node. -/
theorem C5_counterexample :
    c5Scope.status.VMID = some "" ∧
    (getNodeReference c5Env c5Scope).1 = .ok ⟨"Node", "v1", "n1"⟩ := ⟨rfl, rfl⟩

/-- C5 (amended): node-identity resolution rejects an absent (nil) VM
identifier and absent cluster credentials as precondition errors (an
empty-string identifier is not rejected and, containing in every string,
matches the first listed node); with a present identifier and working
credentials it pages through the whole inventory and returns the identity of
the first node whose provider-id contains the identifier as a substring,
returning the not-found error when no node of any page matches; and every
successfully returned identity comes from a delivered node whose provider-id
contains the identifier — never a fabricated match. -/
theorem C5_nodeResolution (env : Env) (scope : MachineScope) :
    (scope.status.VMID = none →
      (getNodeReference env scope).1 =
        .error ("instance id is empty for machine " ++ scope.machineName)) ∧
    (∀ instanceID, scope.status.VMID = some instanceID → scope.clusterConfig = none →
      (getNodeReference env scope).1 =
        .error ("failed to retrieve corev1 client for empty kubeconfig " ++
          scope.clusterName)) ∧
    (∀ (instanceID kubeconfig : String) (pages : List (List corev1.Node)),
      scope.status.VMID = some instanceID →
      scope.clusterConfig = some kubeconfig → env.coreV1Client kubeconfig = .ok () →
      env.nodePages = pages.map Except.ok →
      (getNodeReference env scope).1 =
        (match findNodeRef instanceID pages.flatten with
         | some ref => .ok ref
         | none => .error ("no node found for machine " ++ scope.machineName))) ∧
    (∀ instanceID ref, scope.status.VMID = some instanceID →
      (getNodeReference env scope).1 = .ok ref →
      ∃ nodes, Except.ok nodes ∈ env.nodePages ∧ ∃ n ∈ nodes,
        strContains n.providerID instanceID = true ∧
        ref = ⟨n.kind, n.apiVersion, n.name⟩) := by
  refine ⟨?_, ?_, ?_, ?_⟩
  · intro hid
    simp [getNodeReference, hid]
  · intro instanceID hid hcfg
    simp [getNodeReference, hid, hcfg]
  · intro instanceID kubeconfig pages hid hcfg hcli hpages
    simp only [getNodeReference, hid, hcfg, hcli, hpages]
    exact pageScan_flatten instanceID scope.machineName pages
  · intro instanceID ref hid h
    cases hcfg : scope.clusterConfig with
    | none =>
      simp [getNodeReference, hid, hcfg] at h
    | some kubeconfig =>
      cases hcli : env.coreV1Client kubeconfig with
      | error e =>
        simp [getNodeReference, hid, hcfg, hcli] at h
      | ok u =>
        cases u
        simp only [getNodeReference, hid, hcfg, hcli] at h
        exact pageScan_sound instanceID scope.machineName env.nodePages ref h

/-- Scope whose recorded VM identifier is the concrete id vm-id-1. -/
def c5bScope : MachineScope := { baseScope with status := ⟨some "vm-id-1", none⟩ }

/-- Environment with one inventory page whose single node carries the
provider-id of vm-id-1. -/
def c5bEnv : Env :=
  { baseEnv with nodePages := [.ok [⟨"Node", "v1", "n1", "azure:////vm-id-1"⟩]] }

/-- C5 witness: a nil identifier is rejected with the precondition error, and
with a real identifier the matching node's identity is returned. -/
theorem C5_nodeResolution_witness :
    (getNodeReference c5bEnv baseScope).1 =
      .error ("instance id is empty for machine " ++ "m1") ∧
    (getNodeReference c5bEnv c5bScope).1 = .ok ⟨"Node", "v1", "n1"⟩ :=
  ⟨(C5_nodeResolution c5bEnv baseScope).1 rfl,
   ((C5_nodeResolution c5bEnv c5bScope).2.2.1 "vm-id-1" "kube"
      [[⟨"Node", "v1", "n1", "azure:////vm-id-1"⟩]] rfl rfl rfl rfl).trans rfl⟩


/-! Claim C6 -/

/-- The registry scan issues only VM and extension reads — never a token
request. -/
theorem scanControlPlane_no_token (env : Env) :
    ∀ ms, ∀ c ∈ (Reconciler.scanControlPlane env ms).2, isTokenCall c = false := by
  intro ms
  induction ms with
  | nil =>
    intro c hc
    simp [Reconciler.scanControlPlane] at hc
  | cons cm rest ih =>
    intro c hc
    cases hcp : clusterutil.IsControlPlaneMachine cm with
    | false =>
      simp only [Reconciler.scanControlPlane, hcp, Bool.not_false, if_true] at hc
      exact ih c hc
    | true =>
      simp only [Reconciler.scanControlPlane, hcp, Bool.not_true, if_false] at hc
      cases hv : env.vmGet cm.name with
      | notFound =>
        rw [hv] at hc
        simp at hc
        subst hc
        rfl
      | errWithVM e =>
        rw [hv] at hc
        simp at hc
        subst hc
        rfl
      | wrongType =>
        rw [hv] at hc
        cases hx : env.extGet cm.name with
        | notFound =>
          rw [hx] at hc
          simp at hc
          rcases hc with hc | hc
          all_goals subst hc
          all_goals rfl
        | errWithExt e =>
          rw [hx] at hc
          simp at hc
          rcases hc with hc | hc
          all_goals subst hc
          all_goals rfl
        | found =>
          rw [hx] at hc
          simp at hc
          rcases hc with hc | hc
          all_goals subst hc
          all_goals rfl
      | found vm =>
        rw [hv] at hc
        cases hx : env.extGet cm.name with
        | notFound =>
          rw [hx] at hc
          simp at hc
          rcases hc with hc | hc
          all_goals subst hc
          all_goals rfl
        | errWithExt e =>
          rw [hx] at hc
          simp at hc
          rcases hc with hc | hc
          all_goals subst hc
          all_goals rfl
        | found =>
          rw [hx] at hc
          simp at hc
          rcases hc with hc | hc
          all_goals subst hc
          all_goals rfl

/-- The join decision issues only the registry list and peer reads — never a
token request. -/
theorem isNodeJoin_no_token (env : Env) (s : MachineScope) :
    ∀ c ∈ (Reconciler.isNodeJoin env s).2, isTokenCall c = false := by
  intro c hc
  cases hl : env.machineList with
  | error e =>
    simp [Reconciler.isNodeJoin, hl] at hc
    subst hc
    rfl
  | ok ms =>
    by_cases h1 : s.setLabel = v1alpha1.Node
    · simp [Reconciler.isNodeJoin, hl, h1] at hc
      subst hc
      rfl
    · by_cases h2 : s.setLabel = v1alpha1.ControlPlane
      · rcases hs : Reconciler.scanControlPlane env ms with ⟨r, t⟩
        simp [Reconciler.isNodeJoin, hl, h1, h2, hs, v1alpha1.Node, v1alpha1.ControlPlane] at hc
        rcases hc with hc | hc
        · subst hc
          rfl
        · have hscan := scanControlPlane_no_token env ms c
          rw [hs] at hscan
          exact hscan hc
      · simp [Reconciler.isNodeJoin, hl, h1, h2] at hc
        subst hc
        rfl

/-- The trace of the control-plane check is the join-decision trace, extended
by exactly one token request with the default TTL exactly when the decision
was join = true and the credentials are present. -/
theorem checkControlPlaneMachines_trace (env : Env) (s : MachineScope) :
    (Reconciler.checkControlPlaneMachines env s).2 = (Reconciler.isNodeJoin env s).2 ∨
    ((Reconciler.checkControlPlaneMachines env s).2 =
      (Reconciler.isNodeJoin env s).2 ++ [Call.createToken DefaultBootstrapTokenTTL] ∧
      (Reconciler.isNodeJoin env s).1 = .ok true) := by
  rcases hj : Reconciler.isNodeJoin env s with ⟨r, t⟩
  cases r with
  | error e =>
    left
    simp [Reconciler.checkControlPlaneMachines, hj]
  | ok b =>
    cases b with
    | false =>
      left
      simp [Reconciler.checkControlPlaneMachines, hj]
    | true =>
      cases hcfg : s.clusterConfig with
      | none =>
        left
        simp [Reconciler.checkControlPlaneMachines, hj, hcfg]
      | some k =>
        cases htok : env.createToken k DefaultBootstrapTokenTTL with
        | error e =>
          right
          exact ⟨by simp [Reconciler.checkControlPlaneMachines, hj, hcfg, htok], by simp⟩
        | ok tok =>
          right
          exact ⟨by simp [Reconciler.checkControlPlaneMachines, hj, hcfg, htok], by simp⟩

/-- The Create trace is the control-plane-check trace followed by provision
calls, none of which is a token request. -/
theorem Create_trace_split (env : Env) (s : MachineScope) :
    ∃ l, (Reconciler.Create env s).2.1 = (Reconciler.checkControlPlaneMachines env s).2 ++ l ∧
      ∀ c ∈ l, isTokenCall c = false := by
  rcases hc : Reconciler.checkControlPlaneMachines env s with ⟨r, t⟩
  cases r with
  | error e =>
    exact ⟨[], by simp [Reconciler.Create, hc], by simp⟩
  | ok tok =>
    by_cases h1 : s.setLabel = v1alpha1.Node
    · cases hnic : env.nicCreateOrUpdate
          ⟨s.machineName ++ "-nic", azure.GenerateVnetName s.clusterName,
            azure.GenerateNodeSubnetName s.clusterName, "", "", none⟩ with
      | some e =>
        refine ⟨[Call.nicCreateOrUpdate (s.machineName ++ "-nic")], ?_, ?_⟩
        · simp [Reconciler.Create, hc, h1, hnic]
        · intro c hcm
          simp at hcm
          subst hcm
          rfl
      | none =>
        cases hvm : env.vmCreateOrUpdate
            ⟨s.machineName, s.machineName ++ "-nic",
              env.base64Decode s.machineConfig.sshPublicKey, s.machineConfig.vmSize,
              s.machineConfig.osDisk, s.machineConfig.image⟩ with
        | some e =>
          refine ⟨[Call.nicCreateOrUpdate (s.machineName ++ "-nic"),
            Call.vmCreateOrUpdate s.machineName], ?_, ?_⟩
          · simp [Reconciler.Create, hc, h1, hnic, hvm]
          · intro c hcm
            simp at hcm
            rcases hcm with hcm | hcm
            all_goals subst hcm
            all_goals rfl
        | none =>
          cases hscript : env.getVMStartupScript s tok with
          | error e =>
            refine ⟨[Call.nicCreateOrUpdate (s.machineName ++ "-nic"),
              Call.vmCreateOrUpdate s.machineName], ?_, ?_⟩
            · simp [Reconciler.Create, hc, h1, hnic, hvm, hscript]
            · intro c hcm
              simp at hcm
              rcases hcm with hcm | hcm
              all_goals subst hcm
              all_goals rfl
          | ok d =>
            refine ⟨[Call.nicCreateOrUpdate (s.machineName ++ "-nic"),
              Call.vmCreateOrUpdate s.machineName, Call.extCreateOrUpdate s.machineName],
              ?_, ?_⟩
            · simp [Reconciler.Create, hc, h1, hnic, hvm, hscript]
            · intro c hcm
              simp at hcm
              rcases hcm with hcm | hcm | hcm
              all_goals subst hcm
              all_goals rfl
    · by_cases h2 : s.setLabel = v1alpha1.ControlPlane
      · cases hnic : env.nicCreateOrUpdate
            ⟨s.machineName ++ "-nic", azure.GenerateVnetName s.clusterName,
              azure.GenerateControlPlaneSubnetName s.clusterName,
              azure.GeneratePublicLBName s.clusterName,
              azure.GenerateInternalLBName s.clusterName, some 0⟩ with
        | some e =>
          refine ⟨[Call.nicCreateOrUpdate (s.machineName ++ "-nic")], ?_, ?_⟩
          · simp [Reconciler.Create, hc, h1, h2, hnic, v1alpha1.Node, v1alpha1.ControlPlane]
          · intro c hcm
            simp at hcm
            subst hcm
            rfl
        | none =>
          cases hvm : env.vmCreateOrUpdate
              ⟨s.machineName, s.machineName ++ "-nic",
                env.base64Decode s.machineConfig.sshPublicKey, s.machineConfig.vmSize,
                s.machineConfig.osDisk, s.machineConfig.image⟩ with
          | some e =>
            refine ⟨[Call.nicCreateOrUpdate (s.machineName ++ "-nic"),
              Call.vmCreateOrUpdate s.machineName], ?_, ?_⟩
            · simp [Reconciler.Create, hc, h1, h2, hnic, hvm, v1alpha1.Node, v1alpha1.ControlPlane]
            · intro c hcm
              simp at hcm
              rcases hcm with hcm | hcm
              all_goals subst hcm
              all_goals rfl
          | none =>
            cases hscript : env.getVMStartupScript s tok with
            | error e =>
              refine ⟨[Call.nicCreateOrUpdate (s.machineName ++ "-nic"),
                Call.vmCreateOrUpdate s.machineName], ?_, ?_⟩
              · simp [Reconciler.Create, hc, h1, h2, hnic, hvm, hscript, v1alpha1.Node, v1alpha1.ControlPlane]
              · intro c hcm
                simp at hcm
                rcases hcm with hcm | hcm
                all_goals subst hcm
                all_goals rfl
            | ok d =>
              refine ⟨[Call.nicCreateOrUpdate (s.machineName ++ "-nic"),
                Call.vmCreateOrUpdate s.machineName, Call.extCreateOrUpdate s.machineName],
                ?_, ?_⟩
              · simp [Reconciler.Create, hc, h1, h2, hnic, hvm, hscript, v1alpha1.Node, v1alpha1.ControlPlane]
              · intro c hcm
                simp at hcm
                rcases hcm with hcm | hcm | hcm
                all_goals subst hcm
                all_goals rfl
      · exact ⟨[], by simp [Reconciler.Create, hc, h1, h2], by simp⟩


/-- C6: the default bootstrap-token TTL is exactly ten minutes; every Create
invocation requests at most one bootstrap token; no token is requested unless
the join decision returned join = true; every requested token uses exactly
the default ten-minute TTL; and when the machine is joining but the scope
lacks administrative credentials, Create fails with an error (before any
token request). -/
theorem C6_tokenIssuance (env : Env) (s : MachineScope) :
    DefaultBootstrapTokenTTL = 10 * time.Minute ∧
    (Reconciler.Create env s).2.1.countP isTokenCall ≤ 1 ∧
    ((Reconciler.isNodeJoin env s).1 ≠ .ok true →
      (Reconciler.Create env s).2.1.countP isTokenCall = 0) ∧
    (∀ ttl, Call.createToken ttl ∈ (Reconciler.Create env s).2.1 →
      ttl = DefaultBootstrapTokenTTL) ∧
    ((Reconciler.isNodeJoin env s).1 = .ok true → s.clusterConfig = none →
      ∃ e, (Reconciler.Create env s).1 = .error e) := by
  obtain ⟨l, hl, hlfree⟩ := Create_trace_split env s
  have hjoinfree := isNodeJoin_no_token env s
  have hcheck := checkControlPlaneMachines_trace env s
  have hjcount : (Reconciler.isNodeJoin env s).2.countP isTokenCall = 0 :=
    List.countP_eq_zero.mpr (by
      intro a ha
      simpa using hjoinfree a ha)
  have hlcount : l.countP isTokenCall = 0 :=
    List.countP_eq_zero.mpr (by
      intro a ha
      simpa using hlfree a ha)
  refine ⟨rfl, ?_, ?_, ?_, ?_⟩
  · rw [hl, List.countP_append, hlcount]
    rcases hcheck with h | ⟨h, hjoin⟩
    · rw [h, hjcount]
      omega
    · rw [h, List.countP_append, hjcount]
      simp [isTokenCall]
  · intro hne
    rcases hcheck with h | ⟨h, hjoin⟩
    · rw [hl, List.countP_append, h, hjcount, hlcount]
    · exact absurd hjoin hne
  · intro ttl hmem
    rw [hl] at hmem
    rcases List.mem_append.mp hmem with hmem | hmem
    · rcases hcheck with h | ⟨h, hjoin⟩
      · rw [h] at hmem
        have hfalse := hjoinfree _ hmem
        simp [isTokenCall] at hfalse
      · rw [h] at hmem
        rcases List.mem_append.mp hmem with hmem | hmem
        · have hfalse := hjoinfree _ hmem
          simp [isTokenCall] at hfalse
        · simp at hmem
          exact hmem
    · have hfalse := hlfree _ hmem
      simp [isTokenCall] at hfalse
  · intro hj hcfg
    rcases hjp : Reconciler.isNodeJoin env s with ⟨r, t⟩
    rw [hjp] at hj
    simp at hj
    subst hj
    have hcc : Reconciler.checkControlPlaneMachines env s =
        (.error "failed to retrieve corev1 client for empty kubeconfig", t) := by
      simp [Reconciler.checkControlPlaneMachines, hjp, hcfg]
    refine ⟨"failed to check control plane machines in cluster: " ++
      "failed to retrieve corev1 client for empty kubeconfig", ?_⟩
    simp [Reconciler.Create, hcc]

/-- Scope of a joining worker machine without administrative credentials. -/
def c6Scope : MachineScope := { baseScope with clusterConfig := none }

/-- C6 witness: a joining machine without credentials makes Create fail, and
a machine whose join decision is not join = true requests zero tokens. -/
theorem C6_tokenIssuance_witness :
    (∃ e, (Reconciler.Create baseEnv c6Scope).1 = .error e) ∧
    (Reconciler.Create baseEnv c4Scope).2.1.countP isTokenCall = 0 :=
  ⟨(C6_tokenIssuance baseEnv c6Scope).2.2.2.2 rfl rfl,
   (C6_tokenIssuance baseEnv c4Scope).2.2.1 (fun h => nomatch h)⟩


/-! Claim C9 -/

/-- The synthesized provider id is never the empty string. -/
theorem azurePrefix_ne_empty (idv : String) : "azure:////" ++ idv ≠ "" := by
  intro h
  have h2 := congrArg String.length h
  simp [String.length_append] at h2
  exact absurd h2.1 (by decide)

/-- The status writes of one Exists invocation are empty, or one VMID write
followed by one VMState write, or those two followed by one NodeRef write —
each field is written at most once per invocation. -/
theorem Exists_writes_shape (env : Env) (s : MachineScope) :
    (Reconciler.Exists env s).2.2.1 = [] ∨
    (∃ a b, (Reconciler.Exists env s).2.2.1 =
      [StatusWrite.vmId a, StatusWrite.vmState b]) ∨
    (∃ a b r, (Reconciler.Exists env s).2.2.1 =
      [StatusWrite.vmId a, StatusWrite.vmState b, StatusWrite.nodeRef r]) := by
  cases hv : env.vmGet s.machineName with
  | notFound =>
    left
    simp [Reconciler.Exists, Reconciler.isVMExists, hv]
  | errWithVM e =>
    left
    simp [Reconciler.Exists, Reconciler.isVMExists, hv]
  | wrongType =>
    left
    simp [Reconciler.Exists, Reconciler.isVMExists, hv]
  | found vm =>
    cases hx : env.extGet s.machineName with
    | notFound =>
      left
      simp [Reconciler.Exists, Reconciler.isVMExists, hv, hx]
    | errWithExt e =>
      left
      simp [Reconciler.Exists, Reconciler.isVMExists, hv, hx]
    | found =>
      have hvme : Reconciler.isVMExists env s =
          (.ok true, [Call.vmGet s.machineName, Call.extGet s.machineName],
            [StatusWrite.vmId vm.id, StatusWrite.vmState vm.provisioningState],
            { s with status := ⟨some vm.id, some vm.provisioningState⟩ }) := by
        simp [Reconciler.isVMExists, hv, hx]
      by_cases hcond : vm.provisioningState = v1alpha1.VMStateSucceeded ∨
          vm.provisioningState = v1alpha1.VMStateUpdating
      · by_cases hpid : s.providerID = none ∨ s.providerID = some ""
        · cases hnr : s.nodeRef with
          | some r0 =>
            right
            left
            exact ⟨vm.id, vm.provisioningState,
              by simp [Reconciler.Exists, hvme, hcond, hpid, hnr]⟩
          | none =>
            rcases hg : getNodeReference env
                ({ s with
                    status := ⟨some vm.id, some vm.provisioningState⟩,
                    providerID := some ("azure:////" ++ vm.id),
                    nodeRef := none }) with ⟨gr, gt⟩
            cases gr with
            | error e =>
              right
              left
              exact ⟨vm.id, vm.provisioningState,
                by simp [Reconciler.Exists, hvme, hcond, hpid, hnr, hg]⟩
            | ok ref =>
              right
              right
              exact ⟨vm.id, vm.provisioningState, ref,
                by simp [Reconciler.Exists, hvme, hcond, hpid, hnr, hg]⟩
        · cases hnr : s.nodeRef with
          | some r0 =>
            right
            left
            exact ⟨vm.id, vm.provisioningState,
              by simp [Reconciler.Exists, hvme, hcond, hpid, hnr]⟩
          | none =>
            rcases hg : getNodeReference env
                ({ s with
                    status := ⟨some vm.id, some vm.provisioningState⟩,
                    nodeRef := none }) with ⟨gr, gt⟩
            cases gr with
            | error e =>
              right
              left
              exact ⟨vm.id, vm.provisioningState,
                by simp [Reconciler.Exists, hvme, hcond, hpid, hnr, hg]⟩
            | ok ref =>
              right
              right
              exact ⟨vm.id, vm.provisioningState, ref,
                by simp [Reconciler.Exists, hvme, hcond, hpid, hnr, hg]⟩
      · right
        left
        exact ⟨vm.id, vm.provisioningState, by simp [Reconciler.Exists, hvme, hcond]⟩

/-- Re-running Exists against an unchanged environment leaves the scope — in
particular the three status fields — unchanged: each field is re-set with the
same value or not at all. -/
theorem Exists_scope_idempotent (env : Env) (s : MachineScope) :
    (Reconciler.Exists env ((Reconciler.Exists env s).2.2.2)).2.2.2 =
      (Reconciler.Exists env s).2.2.2 := by
  cases hv : env.vmGet s.machineName with
  | notFound =>
    have h1 : (Reconciler.Exists env s).2.2.2 = s := by
      simp [Reconciler.Exists, Reconciler.isVMExists, hv]
    rw [h1]
    exact h1
  | errWithVM e =>
    have h1 : (Reconciler.Exists env s).2.2.2 = s := by
      simp [Reconciler.Exists, Reconciler.isVMExists, hv]
    rw [h1]
    exact h1
  | wrongType =>
    have h1 : (Reconciler.Exists env s).2.2.2 = s := by
      simp [Reconciler.Exists, Reconciler.isVMExists, hv]
    rw [h1]
    exact h1
  | found vm =>
    cases hx : env.extGet s.machineName with
    | notFound =>
      have h1 : (Reconciler.Exists env s).2.2.2 = s := by
        simp [Reconciler.Exists, Reconciler.isVMExists, hv, hx]
      rw [h1]
      exact h1
    | errWithExt e =>
      have h1 : (Reconciler.Exists env s).2.2.2 = s := by
        simp [Reconciler.Exists, Reconciler.isVMExists, hv, hx]
      rw [h1]
      exact h1
    | found =>
      by_cases hcond : vm.provisioningState = v1alpha1.VMStateSucceeded ∨
          vm.provisioningState = v1alpha1.VMStateUpdating
      · by_cases hpid : s.providerID = none ∨ s.providerID = some ""
        · cases hnr : s.nodeRef with
          | some r0 =>
            have h1 : (Reconciler.Exists env s).2.2.2 =
                { s with
                    status := ⟨some vm.id, some vm.provisioningState⟩,
                    providerID := some ("azure:////" ++ vm.id) } := by
              simp [Reconciler.Exists, Reconciler.isVMExists, hv, hx, hcond, hpid, hnr]
            rw [h1]
            simp [Reconciler.Exists, Reconciler.isVMExists, hv, hx, hcond, hnr,
              azurePrefix_ne_empty vm.id]
          | none =>
            rcases hg : getNodeReference env
                ({ s with
                    status := ⟨some vm.id, some vm.provisioningState⟩,
                    providerID := some ("azure:////" ++ vm.id),
                    nodeRef := none }) with ⟨gr, gt⟩
            cases gr with
            | error e =>
              have h1 : (Reconciler.Exists env s).2.2.2 =
                  { s with
                      status := ⟨some vm.id, some vm.provisioningState⟩,
                      providerID := some ("azure:////" ++ vm.id) } := by
                simp [Reconciler.Exists, Reconciler.isVMExists, hv, hx, hcond, hpid, hnr, hg]
              rw [h1]
              simp [Reconciler.Exists, Reconciler.isVMExists, hv, hx, hcond, hnr,
                azurePrefix_ne_empty vm.id, hg]
            | ok ref =>
              have h1 : (Reconciler.Exists env s).2.2.2 =
                  { s with
                      status := ⟨some vm.id, some vm.provisioningState⟩,
                      providerID := some ("azure:////" ++ vm.id),
                      nodeRef := some ref } := by
                simp [Reconciler.Exists, Reconciler.isVMExists, hv, hx, hcond, hpid, hnr, hg]
              rw [h1]
              simp [Reconciler.Exists, Reconciler.isVMExists, hv, hx, hcond,
                azurePrefix_ne_empty vm.id]
        · cases hnr : s.nodeRef with
          | some r0 =>
            have h1 : (Reconciler.Exists env s).2.2.2 =
                { s with status := ⟨some vm.id, some vm.provisioningState⟩ } := by
              simp [Reconciler.Exists, Reconciler.isVMExists, hv, hx, hcond, hpid, hnr]
            rw [h1]
            simp [Reconciler.Exists, Reconciler.isVMExists, hv, hx, hcond, hpid, hnr]
          | none =>
            rcases hg : getNodeReference env
                ({ s with
                    status := ⟨some vm.id, some vm.provisioningState⟩,
                    nodeRef := none }) with ⟨gr, gt⟩
            cases gr with
            | error e =>
              have h1 : (Reconciler.Exists env s).2.2.2 =
                  { s with status := ⟨some vm.id, some vm.provisioningState⟩ } := by
                simp [Reconciler.Exists, Reconciler.isVMExists, hv, hx, hcond, hpid, hnr, hg]
              rw [h1]
              simp [Reconciler.Exists, Reconciler.isVMExists, hv, hx, hcond, hpid, hnr, hg]
            | ok ref =>
              have h1 : (Reconciler.Exists env s).2.2.2 =
                  { s with
                      status := ⟨some vm.id, some vm.provisioningState⟩,
                      nodeRef := some ref } := by
                simp [Reconciler.Exists, Reconciler.isVMExists, hv, hx, hcond, hpid, hnr, hg]
              rw [h1]
              simp [Reconciler.Exists, Reconciler.isVMExists, hv, hx, hcond, hpid]
      · have h1 : (Reconciler.Exists env s).2.2.2 =
            { s with status := ⟨some vm.id, some vm.provisioningState⟩ } := by
          simp [Reconciler.Exists, Reconciler.isVMExists, hv, hx, hcond]
        rw [h1]
        simp [Reconciler.Exists, Reconciler.isVMExists, hv, hx, hcond]

/-- C9: within one Exists invocation each of the status fields VMID, VMState
and NodeRef is written at most once, and re-running Exists against the same
environment re-sets them with the same values, leaving the scope unchanged. -/
theorem C9_statusWrites (env : Env) (s : MachineScope) :
    ((Reconciler.Exists env s).2.2.1.countP isVMIDWrite ≤ 1) ∧
    ((Reconciler.Exists env s).2.2.1.countP isVMStateWrite ≤ 1) ∧
    ((Reconciler.Exists env s).2.2.1.countP isNodeRefWrite ≤ 1) ∧
    (Reconciler.Exists env ((Reconciler.Exists env s).2.2.2)).2.2.2 =
      (Reconciler.Exists env s).2.2.2 := by
  refine ⟨?_, ?_, ?_, Exists_scope_idempotent env s⟩
  all_goals rcases Exists_writes_shape env s with h | ⟨a, b, h⟩ | ⟨a, b, r, h⟩
  all_goals rw [h]
  all_goals simp [List.countP_cons, isVMIDWrite, isVMStateWrite, isNodeRefWrite]

end AzureReconciler
